import Mathlib

/-!
Verification of rule 903 (`src/src/rule-903.ts`), the surge-detection rule:
a shallow embedding of `handleTransaction` and proofs about its validation,
early-exit, baseline-normalisation and surge-decision behaviour.
-/

namespace Rule903

/-- An ECMAScript number as it flows through the rule: NaN, a signed
infinity (`inf true` is `+Infinity`), or a finite value, idealised as a
rational since the rule's arithmetic claims concern exact values rather
than rounding. -/
inductive JsNum where
  | nan : JsNum
  | inf : Bool → JsNum
  | fin : ℚ → JsNum
deriving DecidableEq, Repr

/-- JavaScript truthiness of a number: NaN and 0 are falsy, every other
number (infinities included) is truthy. -/
def JsNum.truthy : JsNum → Bool
  | .nan => false
  | .inf _ => true
  | .fin q => decide (q ≠ 0)

/-- The `*` operator on the number model (IEEE rules for NaN and
infinities; exact rational product on finite values). -/
def jsMul : JsNum → JsNum → JsNum
  | .nan, _ => .nan
  | _, .nan => .nan
  | .inf s, .inf t => .inf (s == t)
  | .inf s, .fin q => if q = 0 then .nan else .inf (s == decide (0 < q))
  | .fin q, .inf s => if q = 0 then .nan else .inf (s == decide (0 < q))
  | .fin a, .fin b => .fin (a * b)

/-- The `/` operator on the number model: NaN propagates, `∞/∞` is NaN,
a finite value divided by an infinity is 0, a nonzero finite value
divided by zero is a signed infinity, `0/0` is NaN, and otherwise the
exact rational quotient. -/
def jsDiv : JsNum → JsNum → JsNum
  | .nan, _ => .nan
  | _, .nan => .nan
  | .inf _, .inf _ => .nan
  | .inf s, .fin q => .inf (s == decide (0 ≤ q))
  | .fin _, .inf _ => .fin 0
  | .fin a, .fin b =>
      if b = 0 then (if a = 0 then .nan else .inf (decide (0 < a))) else .fin (a / b)

/-- The strict `>` operator: any comparison involving NaN is false. -/
def jsGt : JsNum → JsNum → Bool
  | .nan, _ => false
  | _, .nan => false
  | .inf s, .inf t => s && !t
  | .inf s, .fin _ => s
  | .fin _, .inf t => !t
  | .fin a, .fin b => decide (b < a)

/-- A JavaScript value as delivered by the query collaborator: the
positions the rule inspects hold numbers, null, undefined, or booleans. -/
inductive JsVal where
  | num : JsNum → JsVal
  | nullV : JsVal
  | undef : JsVal
  | boolV : Bool → JsVal
deriving DecidableEq, Repr

/-- ECMAScript ToNumber for the modelled value kinds, as applied
implicitly by the `/` operator: null is 0, undefined is NaN, booleans
are 1 and 0. -/
def jsToNumber : JsVal → JsNum
  | .num v => v
  | .nullV => .fin 0
  | .undef => .nan
  | .boolV b => .fin (if b then 1 else 0)

/-- Loose equality `x == null`: true exactly for null and undefined. -/
def JsVal.isNullish : JsVal → Bool
  | .nullV => true
  | .undef => true
  | _ => false

/-- The check `typeof x === 'number'`: true exactly for number
primitives, NaN included. -/
def JsVal.typeofNumber : JsVal → Bool
  | .num _ => true
  | _ => false

/-- JavaScript truthiness of a possibly-undefined string: undefined and
the empty string are falsy. -/
def strTruthy : Option String → Bool
  | some s => decide (s ≠ "")
  | none => false

/-- Template-literal rendering of a possibly-undefined string field. -/
def undefStr : Option String → String
  | some s => s
  | none => "undefined"

/-- A threshold band from the rule configuration; the rule itself only
checks that the band list is non-empty. -/
structure Band where
  subRuleRef : String
  lowerLimit : JsNum
  upperLimit : JsNum
  reason : String
deriving DecidableEq, Repr

/-- An exit condition (`OutcomeResult`): a preconfigured terminal outcome
keyed by its sub-rule reference. -/
structure OutcomeResult where
  subRuleRef : String
  reason : String
deriving DecidableEq, Repr

/-- The `parameters` object of the rule configuration; every numeric
field may be absent. -/
structure Parameters where
  maxQueryRange : Option JsNum
  baselineQueryRange : Option JsNum
  surgeThresholdMultiplier : Option JsNum
deriving DecidableEq, Repr

/-- The `config` object of the rule configuration; each field may be
absent, which the guard clauses detect. -/
structure RuleConfigInner where
  parameters : Option Parameters
  exitConditions : Option (List OutcomeResult)
  bands : Option (List Band)
deriving DecidableEq, Repr

/-- The rule configuration handed to the rule by the orchestrator. -/
structure RuleConfig where
  id : Option String
  config : Option RuleConfigInner
deriving DecidableEq, Repr

/-- The data cache attached to the event, with resolved creditor and
debtor account identifiers, each possibly absent. -/
structure DataCache where
  cdtrAcctId : Option String
  dbtrAcctId : Option String
deriving DecidableEq, Repr

/-- The parts of the inbound pacs.002 request the rule reads: message id,
group-header creation timestamp, transaction status, and the data cache
(possibly absent). -/
structure Req where
  msgId : String
  creDtTm : String
  txSts : String
  dataCache : Option DataCache
deriving DecidableEq, Repr

/-- The rule result accumulator.  `reason` and `subRuleRef` are the two
fields this rule fills; the remaining fields belong to the caller. -/
structure RuleResult where
  id : String
  cfg : String
  result : Bool
  prcgTm : Int
  reason : String
  subRuleRef : String
deriving DecidableEq, Repr

/-- The data determining a collaborator query: the creditor account
identifier bound into the filter, the event timestamp the window is
anchored at, the window length, and whether the extra
`CreDtTm <= now` clause of the current-window query is present. -/
structure Query where
  accountId : String
  timeFrame : String
  range : JsNum
  boundedByNow : Bool
deriving DecidableEq, Repr

/-- Encoding of `Except` into `Sum`, used to decide equality of
evaluation outcomes. -/
def exceptToSum {ε α : Type} : Except ε α → Sum ε α
  | .error e => .inl e
  | .ok a => .inr a

instance {ε α : Type} [DecidableEq ε] [DecidableEq α] : DecidableEq (Except ε α) :=
  fun x y =>
    decidable_of_iff (exceptToSum x = exceptToSum y)
      (by cases x <;> cases y <;> simp [exceptToSum])

/-- The observable outcome of one invocation: the returned rule result or
the thrown error message, together with the collaborator queries issued,
in order. -/
structure EvalOutput where
  result : Except String RuleResult
  queries : List Query
deriving DecidableEq, Repr

/-- Line 53: `(parameters.baselineQueryRange as number) || maxQueryRange * 5`
— the configured value when truthy, else the default window of five
current windows. -/
def effBaselineRange (p : Parameters) (maxQueryRange : JsNum) : JsNum :=
  match p.baselineQueryRange with
  | some v => if v.truthy then v else jsMul maxQueryRange (.fin 5)
  | none => jsMul maxQueryRange (.fin 5)

/-- Line 108: `(parameters.surgeThresholdMultiplier as number) || 2` —
the configured multiplier when truthy, else 2. -/
def effMultiplier (p : Parameters) : JsNum :=
  match p.surgeThresholdMultiplier with
  | some v => if v.truthy then v else .fin 2
  | none => .fin 2

/-- Line 77's divisor `baselineQueryRange / maxQueryRange`: the factor by
which the wider baseline window exceeds the current window. -/
def windowRatio (baselineQueryRange maxQueryRange : JsNum) : JsNum :=
  jsDiv baselineQueryRange maxQueryRange

/-- Line 77: `baselineTransactions[0] / (baselineQueryRange / maxQueryRange)`
— the raw baseline aggregate normalised to the size of the current
window. -/
def baselineCountOf (raw baselineQueryRange maxQueryRange : JsNum) : JsNum :=
  jsDiv raw (windowRatio baselineQueryRange maxQueryRange)

/-- The baseline query (lines 61-67): filter on the creditor account,
the fixed type `pacs.002.001.12`, and `now - CreDtTm <= baselineQueryRange`. -/
def baselineQueryOf (accountId timeFrame : String) (range : JsNum) : Query :=
  ⟨accountId, timeFrame, range, false⟩

/-- The current-window query (lines 86-93): the same filter with
`now - CreDtTm <= maxQueryRange` and additionally `CreDtTm <= now`. -/
def currentQueryOf (accountId timeFrame : String) (range : JsNum) : Query :=
  ⟨accountId, timeFrame, range, true⟩

/-- Line 79: `baselineCount == null || typeof baselineCount !== 'number'`.
`baselineCount` is the result of the `/` operator, which always produces
a number primitive (possibly NaN), so this condition is identically
false: the guard at lines 79-81 is unreachable. -/
def baselineCountNullOrNotNumber (_ : JsNum) : Bool := false

/-- Shallow embedding of `handleTransaction` (src/src/rule-903.ts).  The
two awaited collaborator calls are modelled as oracle functions:
`dbBaseline` returns the batch result of the baseline query (`none` when
the returned value is not an array, so that `Array.isArray` fails), and
`dbCurrent` returns the current-window result after the external
library helper `unwrap` (one level of unwrapping; `unwrap` belongs to
`@frmscoe/frms-coe-lib`, not to this repository, so the collaborator is
taken to deliver the unwrapped value per the §6 contract).  The output
records the returned rule result or thrown error message, together with
the queries issued, in order. -/
def handleTransaction (req : Req)
    (determineOutcome : Nat → Option RuleConfig → RuleResult → RuleResult)
    (ruleRes : RuleResult) (ruleConfig : Option RuleConfig)
    (dbBaseline : Query → Option (List JsVal)) (dbCurrent : Query → JsVal) :
    EvalOutput :=
  match ruleConfig.bind RuleConfig.config with
  | none => ⟨.error "Invalid config provided - bands not provided or empty", []⟩
  | some cfg =>
  match cfg.bands with
  | none => ⟨.error "Invalid config provided - bands not provided or empty", []⟩
  | some bands =>
  if bands.isEmpty then
    ⟨.error "Invalid config provided - bands not provided or empty", []⟩
  else
  match cfg.exitConditions with
  | none => ⟨.error "Invalid config provided - exitConditions not provided", []⟩
  | some exitConditions =>
  match cfg.parameters with
  | none => ⟨.error "Invalid config provided - parameters not provided", []⟩
  | some parameters =>
  match parameters.maxQueryRange with
  | none => ⟨.error "Invalid config provided - maxQueryRange parameter not provided", []⟩
  | some maxQueryRange =>
  if ¬ maxQueryRange.truthy then
    ⟨.error "Invalid config provided - maxQueryRange parameter not provided", []⟩
  else if ¬ strTruthy (req.dataCache.bind DataCache.dbtrAcctId) then
    ⟨.error "Data Cache does not have required dbtrAcctId", []⟩
  else
  let UnsuccessfulTransaction := exitConditions.find? (fun b => b.subRuleRef == ".x00")
  if req.txSts ≠ "ACCC" then
    match UnsuccessfulTransaction with
    | none => ⟨.error "Unsuccessful transaction and no exit condition in config", []⟩
    | some u => ⟨.ok { ruleRes with reason := u.reason, subRuleRef := u.subRuleRef }, []⟩
  else
  let currentPacs002TimeFrame := req.creDtTm
  let creditorAccountId := "accounts/" ++ undefStr (req.dataCache.bind DataCache.cdtrAcctId)
  let baselineQueryRange := effBaselineRange parameters maxQueryRange
  let baselineQuery := baselineQueryOf creditorAccountId currentPacs002TimeFrame baselineQueryRange
  match dbBaseline baselineQuery with
  | none =>
    ⟨.error "Data error: irretrievable baseline transaction history or no transactions found.",
     [baselineQuery]⟩
  | some baselineTransactions =>
  match baselineTransactions with
  | [] =>
    ⟨.error "Data error: irretrievable baseline transaction history or no transactions found.",
     [baselineQuery]⟩
  | raw :: _ =>
  let baselineCount := baselineCountOf (jsToNumber raw) baselineQueryRange maxQueryRange
  if baselineCountNullOrNotNumber baselineCount then
    ⟨.error "Data error: invalid baseline count type or null value.", [baselineQuery]⟩
  else
  let currentQuery := currentQueryOf creditorAccountId currentPacs002TimeFrame maxQueryRange
  let count := dbCurrent currentQuery
  if count.isNullish then
    ⟨.error "Data error: irretrievable transaction history", [baselineQuery, currentQuery]⟩
  else if ¬ count.typeofNumber then
    ⟨.error "Data error: query result type mismatch - expected a number",
     [baselineQuery, currentQuery]⟩
  else
  let surgeThresholdMultiplier := effMultiplier parameters
  let isSurge := jsGt (jsToNumber count) (jsMul baselineCount surgeThresholdMultiplier)
  if isSurge then
    ⟨.ok (determineOutcome 1 ruleConfig ruleRes), [baselineQuery, currentQuery]⟩
  else
    ⟨.ok (determineOutcome 0 ruleConfig ruleRes), [baselineQuery, currentQuery]⟩

/-- Truthiness of a possibly-absent number field, as tested by the guard
`!ruleConfig.config.parameters.maxQueryRange`. -/
def optNumTruthy : Option JsNum → Bool
  | some v => v.truthy
  | none => false

/-- Division of finite values by a non-zero finite value is exact
rational division. -/
theorem jsDiv_fin_fin (a : ℚ) {b : ℚ} (hb : b ≠ 0) :
    jsDiv (.fin a) (.fin b) = .fin (a / b) := by
  simp [jsDiv, hb]

/-- C2: for fixed non-zero `maxQueryRange = M` and `baselineQueryRange = B`,
the computed baseline count is `rawBaseline / (B / M) = rawBaseline · (M/B)`;
this is linear in the raw baseline, and simultaneously scaling `B` and the
raw baseline by the same non-zero factor leaves it unchanged. -/
theorem c2_baseline_normalisation (r B M : ℚ) (hB : B ≠ 0) (hM : M ≠ 0) :
    baselineCountOf (.fin r) (.fin B) (.fin M) = .fin (r * (M / B))
    ∧ (∀ a r1 r2 : ℚ,
        baselineCountOf (.fin (a * r1 + r2)) (.fin B) (.fin M)
          = .fin (a * (r1 * (M / B)) + r2 * (M / B)))
    ∧ (∀ k : ℚ, k ≠ 0 →
        baselineCountOf (.fin (k * r)) (.fin (k * B)) (.fin M)
          = baselineCountOf (.fin r) (.fin B) (.fin M)) := by
  have hBM : B / M ≠ 0 := div_ne_zero hB hM
  have key : ∀ x : ℚ, baselineCountOf (.fin x) (.fin B) (.fin M) = .fin (x * (M / B)) := by
    intro x
    rw [baselineCountOf, windowRatio, jsDiv_fin_fin B hM, jsDiv_fin_fin x hBM]
    congr 1
    rw [div_div_eq_mul_div, mul_div_assoc]
  refine ⟨key r, fun a r1 r2 => ?_, fun k hk => ?_⟩
  · rw [key]
    congr 1
    ring
  · have hkB : k * B ≠ 0 := mul_ne_zero hk hB
    have hkBM : k * B / M ≠ 0 := div_ne_zero hkB hM
    rw [baselineCountOf, windowRatio, jsDiv_fin_fin (k * B) hM,
      jsDiv_fin_fin (k * r) hkBM, baselineCountOf, windowRatio,
      jsDiv_fin_fin B hM, jsDiv_fin_fin r hBM]
    congr 1
    field_simp
    ring

/-- Witness for C2 at the spec's Scenario A figures (`M = 3600`,
`B = 18000`, raw baseline `50`): the normalised baseline count is `10`. -/
theorem c2_baseline_normalisation_witness :
    (18000 : ℚ) ≠ 0 ∧ (3600 : ℚ) ≠ 0 ∧
    baselineCountOf (.fin 50) (.fin 18000) (.fin 3600) = .fin 10 := by
  refine ⟨by norm_num, by norm_num, ?_⟩
  rw [(c2_baseline_normalisation 50 18000 3600 (by norm_num) (by norm_num)).1]
  norm_num

/-- C3: the five guard clauses are checked in order — bands present and
non-empty, exitConditions present, parameters present, maxQueryRange
truthy, dbtrAcctId truthy — and the first violated one aborts the
evaluation with its own error before any collaborator query is issued;
the five error messages are pairwise distinct. -/
theorem c3_guard_order_distinct_errors :
    (∀ (req : Req) (det : Nat → Option RuleConfig → RuleResult → RuleResult)
        (res : RuleResult) (rc : Option RuleConfig)
        (dbB : Query → Option (List JsVal)) (dbC : Query → JsVal),
      ((rc.bind RuleConfig.config).bind RuleConfigInner.bands = none
          ∨ (rc.bind RuleConfig.config).bind RuleConfigInner.bands = some []) →
      handleTransaction req det res rc dbB dbC
        = ⟨.error "Invalid config provided - bands not provided or empty", []⟩)
    ∧ (∀ (req : Req) (det : Nat → Option RuleConfig → RuleResult → RuleResult)
        (res : RuleResult) (rc : Option RuleConfig)
        (dbB : Query → Option (List JsVal)) (dbC : Query → JsVal)
        (cfg : RuleConfigInner) (bs : List Band),
      rc.bind RuleConfig.config = some cfg → cfg.bands = some bs →
      bs.isEmpty = false → cfg.exitConditions = none →
      handleTransaction req det res rc dbB dbC
        = ⟨.error "Invalid config provided - exitConditions not provided", []⟩)
    ∧ (∀ (req : Req) (det : Nat → Option RuleConfig → RuleResult → RuleResult)
        (res : RuleResult) (rc : Option RuleConfig)
        (dbB : Query → Option (List JsVal)) (dbC : Query → JsVal)
        (cfg : RuleConfigInner) (bs : List Band) (ecs : List OutcomeResult),
      rc.bind RuleConfig.config = some cfg → cfg.bands = some bs →
      bs.isEmpty = false → cfg.exitConditions = some ecs →
      cfg.parameters = none →
      handleTransaction req det res rc dbB dbC
        = ⟨.error "Invalid config provided - parameters not provided", []⟩)
    ∧ (∀ (req : Req) (det : Nat → Option RuleConfig → RuleResult → RuleResult)
        (res : RuleResult) (rc : Option RuleConfig)
        (dbB : Query → Option (List JsVal)) (dbC : Query → JsVal)
        (cfg : RuleConfigInner) (bs : List Band) (ecs : List OutcomeResult)
        (ps : Parameters),
      rc.bind RuleConfig.config = some cfg → cfg.bands = some bs →
      bs.isEmpty = false → cfg.exitConditions = some ecs →
      cfg.parameters = some ps → optNumTruthy ps.maxQueryRange = false →
      handleTransaction req det res rc dbB dbC
        = ⟨.error "Invalid config provided - maxQueryRange parameter not provided", []⟩)
    ∧ (∀ (req : Req) (det : Nat → Option RuleConfig → RuleResult → RuleResult)
        (res : RuleResult) (rc : Option RuleConfig)
        (dbB : Query → Option (List JsVal)) (dbC : Query → JsVal)
        (cfg : RuleConfigInner) (bs : List Band) (ecs : List OutcomeResult)
        (ps : Parameters) (mqr : JsNum),
      rc.bind RuleConfig.config = some cfg → cfg.bands = some bs →
      bs.isEmpty = false → cfg.exitConditions = some ecs →
      cfg.parameters = some ps → ps.maxQueryRange = some mqr →
      mqr.truthy = true →
      strTruthy (req.dataCache.bind DataCache.dbtrAcctId) = false →
      handleTransaction req det res rc dbB dbC
        = ⟨.error "Data Cache does not have required dbtrAcctId", []⟩)
    ∧ (("Invalid config provided - bands not provided or empty" : String)
          ≠ "Invalid config provided - exitConditions not provided"
        ∧ ("Invalid config provided - bands not provided or empty" : String)
          ≠ "Invalid config provided - parameters not provided"
        ∧ ("Invalid config provided - bands not provided or empty" : String)
          ≠ "Invalid config provided - maxQueryRange parameter not provided"
        ∧ ("Invalid config provided - bands not provided or empty" : String)
          ≠ "Data Cache does not have required dbtrAcctId"
        ∧ ("Invalid config provided - exitConditions not provided" : String)
          ≠ "Invalid config provided - parameters not provided"
        ∧ ("Invalid config provided - exitConditions not provided" : String)
          ≠ "Invalid config provided - maxQueryRange parameter not provided"
        ∧ ("Invalid config provided - exitConditions not provided" : String)
          ≠ "Data Cache does not have required dbtrAcctId"
        ∧ ("Invalid config provided - parameters not provided" : String)
          ≠ "Invalid config provided - maxQueryRange parameter not provided"
        ∧ ("Invalid config provided - parameters not provided" : String)
          ≠ "Data Cache does not have required dbtrAcctId"
        ∧ ("Invalid config provided - maxQueryRange parameter not provided" : String)
          ≠ "Data Cache does not have required dbtrAcctId") := by
  refine ⟨?_, ?_, ?_, ?_, ?_, by decide⟩
  · intro req det res rc dbB dbC h
    cases hc : rc.bind RuleConfig.config with
    | none => simp [handleTransaction, hc]
    | some cfg =>
      rw [hc] at h
      simp only [Option.some_bind] at h
      rcases h with h | h
      · simp [handleTransaction, hc, h]
      · simp [handleTransaction, hc, h]
  · intro req det res rc dbB dbC cfg bs hc hb hbe he
    simp [handleTransaction, hc, hb, hbe, he]
  · intro req det res rc dbB dbC cfg bs ecs hc hb hbe he hp
    simp [handleTransaction, hc, hb, hbe, he, hp]
  · intro req det res rc dbB dbC cfg bs ecs ps hc hb hbe he hp hm
    cases hmq : ps.maxQueryRange with
    | none => simp [handleTransaction, hc, hb, hbe, he, hp, hmq]
    | some v =>
      rw [hmq] at hm
      simp only [optNumTruthy] at hm
      simp [handleTransaction, hc, hb, hbe, he, hp, hmq, hm]
  · intro req det res rc dbB dbC cfg bs ecs ps mqr hc hb hbe he hp hmq hm hd
    simp [handleTransaction, hc, hb, hbe, he, hp, hmq, hm, hd]

/-- Witness for C3: a configuration missing `exitConditions` (second
guard) fails with the exitConditions error and issues no query. -/
theorem c3_guard_order_distinct_errors_witness :
    handleTransaction ⟨"m1", "t0", "ACCC", some ⟨some "c1", some "d1"⟩⟩
        (fun _ _ r => r) ⟨"903", "1.0.0", true, 0, "", ""⟩
        (some ⟨some "903", some ⟨none, none, some [⟨".01", .fin 0, .fin 100, "band"⟩]⟩⟩)
        (fun _ => none) (fun _ => .undef)
      = ⟨.error "Invalid config provided - exitConditions not provided", []⟩ :=
  c3_guard_order_distinct_errors.2.1 _ _ _ _ _ _
    ⟨none, none, some [⟨".01", .fin 0, .fin 100, "band"⟩]⟩
    [⟨".01", .fin 0, .fin 100, "band"⟩] rfl rfl rfl rfl

/-- C4: for a non-"ACCC" transaction whose configuration holds a `.x00`
exit condition, the rule returns the partial result with only `reason`
and `subRuleRef` replaced by the exit condition's values (all other
fields unchanged) and issues no collaborator query. -/
theorem c4_early_exit_merge (req : Req)
    (det : Nat → Option RuleConfig → RuleResult → RuleResult)
    (res : RuleResult) (rc : Option RuleConfig)
    (dbB : Query → Option (List JsVal)) (dbC : Query → JsVal)
    (cfg : RuleConfigInner) (bs : List Band) (ecs : List OutcomeResult)
    (ps : Parameters) (mqr : JsNum) (u : OutcomeResult)
    (hc : rc.bind RuleConfig.config = some cfg) (hb : cfg.bands = some bs)
    (hbe : bs.isEmpty = false) (he : cfg.exitConditions = some ecs)
    (hp : cfg.parameters = some ps) (hmq : ps.maxQueryRange = some mqr)
    (hm : mqr.truthy = true)
    (hd : strTruthy (req.dataCache.bind DataCache.dbtrAcctId) = true)
    (hsts : req.txSts ≠ "ACCC")
    (hfind : ecs.find? (fun b => b.subRuleRef == ".x00") = some u) :
    handleTransaction req det res rc dbB dbC
      = ⟨.ok { res with reason := u.reason, subRuleRef := u.subRuleRef }, []⟩
    ∧ ({ res with reason := u.reason, subRuleRef := u.subRuleRef } : RuleResult).id = res.id
    ∧ ({ res with reason := u.reason, subRuleRef := u.subRuleRef } : RuleResult).cfg = res.cfg
    ∧ ({ res with reason := u.reason, subRuleRef := u.subRuleRef } : RuleResult).result = res.result
    ∧ ({ res with reason := u.reason, subRuleRef := u.subRuleRef } : RuleResult).prcgTm = res.prcgTm := by
  refine ⟨?_, rfl, rfl, rfl, rfl⟩
  simp [handleTransaction, hc, hb, hbe, he, hp, hmq, hm, hd, hsts, hfind]

/-- Witness for C4: a rejected transaction with the `.x00` exit condition
configured returns the partial result with that reason and sub-rule
reference and an empty query trace. -/
theorem c4_early_exit_merge_witness :
    handleTransaction ⟨"m1", "t0", "RJCT", some ⟨some "c1", some "d1"⟩⟩
        (fun _ _ r => r) ⟨"903", "1.0.0", true, 7, "old", ".old"⟩
        (some ⟨some "903", some ⟨some ⟨some (.fin 3600), none, none⟩,
          some [⟨".x00", "Unsuccessful transaction"⟩],
          some [⟨".01", .fin 0, .fin 100, "band"⟩]⟩⟩)
        (fun _ => none) (fun _ => .undef)
      = ⟨.ok ⟨"903", "1.0.0", true, 7, "Unsuccessful transaction", ".x00"⟩, []⟩ :=
  (c4_early_exit_merge ⟨"m1", "t0", "RJCT", some ⟨some "c1", some "d1"⟩⟩
    (fun _ _ r => r) ⟨"903", "1.0.0", true, 7, "old", ".old"⟩
    (some ⟨some "903", some ⟨some ⟨some (.fin 3600), none, none⟩,
      some [⟨".x00", "Unsuccessful transaction"⟩],
      some [⟨".01", .fin 0, .fin 100, "band"⟩]⟩⟩)
    (fun _ => none) (fun _ => .undef)
    ⟨some ⟨some (.fin 3600), none, none⟩,
      some [⟨".x00", "Unsuccessful transaction"⟩],
      some [⟨".01", .fin 0, .fin 100, "band"⟩]⟩
    [⟨".01", .fin 0, .fin 100, "band"⟩]
    [⟨".x00", "Unsuccessful transaction"⟩]
    ⟨some (.fin 3600), none, none⟩ (.fin 3600)
    ⟨".x00", "Unsuccessful transaction"⟩
    rfl rfl rfl rfl rfl rfl rfl rfl (by decide) rfl).1

/-- C5: for a non-"ACCC" transaction whose configuration holds no `.x00`
exit condition, the evaluation fails (throws) instead of producing a rule
verdict, and issues no collaborator query. -/
theorem c5_early_exit_missing_condition (req : Req)
    (det : Nat → Option RuleConfig → RuleResult → RuleResult)
    (res : RuleResult) (rc : Option RuleConfig)
    (dbB : Query → Option (List JsVal)) (dbC : Query → JsVal)
    (cfg : RuleConfigInner) (bs : List Band) (ecs : List OutcomeResult)
    (ps : Parameters) (mqr : JsNum)
    (hc : rc.bind RuleConfig.config = some cfg) (hb : cfg.bands = some bs)
    (hbe : bs.isEmpty = false) (he : cfg.exitConditions = some ecs)
    (hp : cfg.parameters = some ps) (hmq : ps.maxQueryRange = some mqr)
    (hm : mqr.truthy = true)
    (hd : strTruthy (req.dataCache.bind DataCache.dbtrAcctId) = true)
    (hsts : req.txSts ≠ "ACCC")
    (hfind : ecs.find? (fun b => b.subRuleRef == ".x00") = none) :
    handleTransaction req det res rc dbB dbC
      = ⟨.error "Unsuccessful transaction and no exit condition in config", []⟩ := by
  simp [handleTransaction, hc, hb, hbe, he, hp, hmq, hm, hd, hsts, hfind]

/-- Witness for C5: a rejected transaction with only a `.x01` exit
condition configured fails with the unsuccessful-transaction error. -/
theorem c5_early_exit_missing_condition_witness :
    handleTransaction ⟨"m1", "t0", "RJCT", some ⟨some "c1", some "d1"⟩⟩
        (fun _ _ r => r) ⟨"903", "1.0.0", true, 0, "", ""⟩
        (some ⟨some "903", some ⟨some ⟨some (.fin 3600), none, none⟩,
          some [⟨".x01", "Other"⟩],
          some [⟨".01", .fin 0, .fin 100, "band"⟩]⟩⟩)
        (fun _ => none) (fun _ => .undef)
      = ⟨.error "Unsuccessful transaction and no exit condition in config", []⟩ :=
  c5_early_exit_missing_condition ⟨"m1", "t0", "RJCT", some ⟨some "c1", some "d1"⟩⟩
    (fun _ _ r => r) ⟨"903", "1.0.0", true, 0, "", ""⟩
    (some ⟨some "903", some ⟨some ⟨some (.fin 3600), none, none⟩,
      some [⟨".x01", "Other"⟩],
      some [⟨".01", .fin 0, .fin 100, "band"⟩]⟩⟩)
    (fun _ => none) (fun _ => .undef)
    ⟨some ⟨some (.fin 3600), none, none⟩, some [⟨".x01", "Other"⟩],
      some [⟨".01", .fin 0, .fin 100, "band"⟩]⟩
    [⟨".01", .fin 0, .fin 100, "band"⟩] [⟨".x01", "Other"⟩]
    ⟨some (.fin 3600), none, none⟩ (.fin 3600)
    rfl rfl rfl rfl rfl rfl rfl rfl (by decide) (by decide)

/-- C6: the baseline window is the configured `baselineQueryRange` when
truthy and `maxQueryRange * 5` when absent or falsy; the surge multiplier
is the configured `surgeThresholdMultiplier` when truthy and `2` when
absent or falsy; and past validation and the early-exit check, the
baseline query issued first carries exactly that effective window. -/
theorem c6_parameter_defaults (p : Parameters) (maxQueryRange : JsNum) :
    (p.baselineQueryRange = none →
      effBaselineRange p maxQueryRange = jsMul maxQueryRange (.fin 5))
    ∧ (∀ v, p.baselineQueryRange = some v → v.truthy = false →
      effBaselineRange p maxQueryRange = jsMul maxQueryRange (.fin 5))
    ∧ (∀ v, p.baselineQueryRange = some v → v.truthy = true →
      effBaselineRange p maxQueryRange = v)
    ∧ (p.surgeThresholdMultiplier = none → effMultiplier p = .fin 2)
    ∧ (∀ v, p.surgeThresholdMultiplier = some v → v.truthy = false →
      effMultiplier p = .fin 2)
    ∧ (∀ v, p.surgeThresholdMultiplier = some v → v.truthy = true →
      effMultiplier p = v)
    ∧ (∀ (req : Req) (det : Nat → Option RuleConfig → RuleResult → RuleResult)
        (res : RuleResult) (rc : Option RuleConfig)
        (dbB : Query → Option (List JsVal)) (dbC : Query → JsVal)
        (cfg : RuleConfigInner) (bs : List Band) (ecs : List OutcomeResult),
      rc.bind RuleConfig.config = some cfg → cfg.bands = some bs →
      bs.isEmpty = false → cfg.exitConditions = some ecs →
      cfg.parameters = some p → p.maxQueryRange = some maxQueryRange →
      maxQueryRange.truthy = true →
      strTruthy (req.dataCache.bind DataCache.dbtrAcctId) = true →
      req.txSts = "ACCC" →
      (handleTransaction req det res rc dbB dbC).queries.head?
        = some (baselineQueryOf
            ("accounts/" ++ undefStr (req.dataCache.bind DataCache.cdtrAcctId))
            req.creDtTm (effBaselineRange p maxQueryRange))) := by
  refine ⟨fun h => by simp [effBaselineRange, h],
    fun v hv ht => by simp [effBaselineRange, hv, ht],
    fun v hv ht => by simp [effBaselineRange, hv, ht],
    fun h => by simp [effMultiplier, h],
    fun v hv ht => by simp [effMultiplier, hv, ht],
    fun v hv ht => by simp [effMultiplier, hv, ht],
    ?_⟩
  intro req det res rc dbB dbC cfg bs ecs hc hb hbe he hp hmq hm hd hsts
  simp [handleTransaction, hc, hb, hbe, he, hp, hmq, hm, hd, hsts]
  cases hdb : dbB (baselineQueryOf
      ("accounts/" ++ undefStr (req.dataCache.bind DataCache.cdtrAcctId))
      req.creDtTm (effBaselineRange p maxQueryRange)) with
  | none => simp [hdb, hc, hb, hbe, he, hp, hmq, hm, hd, hsts]
  | some ts =>
    cases ts with
    | nil => simp [hdb, hc, hb, hbe, he, hp, hmq, hm, hd, hsts]
    | cons raw rest =>
      simp only [hdb, hc, hb, hbe, he, hp, hmq, hm, hd, hsts]
      split <;> try rfl
      split <;> try rfl
      split <;> try rfl
      split <;> rfl

/-- Witness for C6: with no configured baseline range the window defaults
to `3600 * 5 = 18000`, and with no configured multiplier the multiplier
defaults to `2`. -/
theorem c6_parameter_defaults_witness :
    effBaselineRange ⟨some (.fin 3600), none, none⟩ (.fin 3600) = jsMul (.fin 3600) (.fin 5)
    ∧ effMultiplier ⟨some (.fin 3600), none, none⟩ = .fin 2 :=
  ⟨(c6_parameter_defaults ⟨some (.fin 3600), none, none⟩ (.fin 3600)).1 rfl,
    (c6_parameter_defaults ⟨some (.fin 3600), none, none⟩ (.fin 3600)).2.2.2.1 rfl⟩

/-- C9: two invocations identical except for the value of a present,
truthy `dbtrAcctId`, with the same collaborator responses, produce
identical outputs — the field is checked for presence but its value
influences neither query nor result. -/
theorem c9_dbtrAcctId_value_irrelevant
    (msgId creDtTm txSts : String) (cdtr : Option String) (d1 d2 : String)
    (h1 : d1 ≠ "") (h2 : d2 ≠ "")
    (det : Nat → Option RuleConfig → RuleResult → RuleResult)
    (res : RuleResult) (rc : Option RuleConfig)
    (dbB : Query → Option (List JsVal)) (dbC : Query → JsVal) :
    handleTransaction ⟨msgId, creDtTm, txSts, some ⟨cdtr, some d1⟩⟩ det res rc dbB dbC
      = handleTransaction ⟨msgId, creDtTm, txSts, some ⟨cdtr, some d2⟩⟩ det res rc dbB dbC := by
  simp [handleTransaction, strTruthy, h1, h2]

/-- Witness for C9: two debtor account identifiers "a" and "b" yield the
same evaluation output on otherwise identical inputs. -/
theorem c9_dbtrAcctId_value_irrelevant_witness :
    handleTransaction ⟨"m1", "t0", "ACCC", some ⟨some "c1", some "a"⟩⟩
        (fun _ _ r => r) ⟨"903", "1.0.0", true, 0, "", ""⟩
        (some ⟨some "903", some ⟨some ⟨some (.fin 3600), none, none⟩,
          some [⟨".x00", "Unsuccessful"⟩],
          some [⟨".01", .fin 0, .fin 100, "band"⟩]⟩⟩)
        (fun _ => some [.num (.fin 50)]) (fun _ => .num (.fin 25))
      = handleTransaction ⟨"m1", "t0", "ACCC", some ⟨some "c1", some "b"⟩⟩
          (fun _ _ r => r) ⟨"903", "1.0.0", true, 0, "", ""⟩
          (some ⟨some "903", some ⟨some ⟨some (.fin 3600), none, none⟩,
            some [⟨".x00", "Unsuccessful"⟩],
            some [⟨".01", .fin 0, .fin 100, "band"⟩]⟩⟩)
          (fun _ => some [.num (.fin 50)]) (fun _ => .num (.fin 25)) :=
  c9_dbtrAcctId_value_irrelevant "m1" "t0" "ACCC" (some "c1") "a" "b"
    (by decide) (by decide) (fun _ _ r => r) ⟨"903", "1.0.0", true, 0, "", ""⟩
    (some ⟨some "903", some ⟨some ⟨some (.fin 3600), none, none⟩,
      some [⟨".x00", "Unsuccessful"⟩],
      some [⟨".01", .fin 0, .fin 100, "band"⟩]⟩⟩)
    (fun _ => some [.num (.fin 50)]) (fun _ => .num (.fin 25))

/-- C7: when the baseline query result is not an array or is an empty
array the evaluation fails with the data-availability error having issued
only the baseline query; a single-element array holding the number 0 does
not fail that check — the current-window query is still issued. -/
theorem c7_baseline_availability (req : Req)
    (det : Nat → Option RuleConfig → RuleResult → RuleResult)
    (res : RuleResult) (rc : Option RuleConfig)
    (dbB : Query → Option (List JsVal)) (dbC : Query → JsVal)
    (cfg : RuleConfigInner) (bs : List Band) (ecs : List OutcomeResult)
    (ps : Parameters) (mqr : JsNum)
    (hc : rc.bind RuleConfig.config = some cfg) (hb : cfg.bands = some bs)
    (hbe : bs.isEmpty = false) (he : cfg.exitConditions = some ecs)
    (hp : cfg.parameters = some ps) (hmq : ps.maxQueryRange = some mqr)
    (hm : mqr.truthy = true)
    (hd : strTruthy (req.dataCache.bind DataCache.dbtrAcctId) = true)
    (hsts : req.txSts = "ACCC") :
    (dbB (baselineQueryOf
        ("accounts/" ++ undefStr (req.dataCache.bind DataCache.cdtrAcctId))
        req.creDtTm (effBaselineRange ps mqr)) = none →
      handleTransaction req det res rc dbB dbC
        = ⟨.error "Data error: irretrievable baseline transaction history or no transactions found.",
           [baselineQueryOf
             ("accounts/" ++ undefStr (req.dataCache.bind DataCache.cdtrAcctId))
             req.creDtTm (effBaselineRange ps mqr)]⟩)
    ∧ (dbB (baselineQueryOf
        ("accounts/" ++ undefStr (req.dataCache.bind DataCache.cdtrAcctId))
        req.creDtTm (effBaselineRange ps mqr)) = some [] →
      handleTransaction req det res rc dbB dbC
        = ⟨.error "Data error: irretrievable baseline transaction history or no transactions found.",
           [baselineQueryOf
             ("accounts/" ++ undefStr (req.dataCache.bind DataCache.cdtrAcctId))
             req.creDtTm (effBaselineRange ps mqr)]⟩)
    ∧ (dbB (baselineQueryOf
        ("accounts/" ++ undefStr (req.dataCache.bind DataCache.cdtrAcctId))
        req.creDtTm (effBaselineRange ps mqr)) = some [.num (.fin 0)] →
      (handleTransaction req det res rc dbB dbC).queries
        = [baselineQueryOf
             ("accounts/" ++ undefStr (req.dataCache.bind DataCache.cdtrAcctId))
             req.creDtTm (effBaselineRange ps mqr),
           currentQueryOf
             ("accounts/" ++ undefStr (req.dataCache.bind DataCache.cdtrAcctId))
             req.creDtTm mqr]) := by
  refine ⟨fun h => ?_, fun h => ?_, fun h => ?_⟩
  · simp [handleTransaction, hc, hb, hbe, he, hp, hmq, hm, hd, hsts, h]
  · simp [handleTransaction, hc, hb, hbe, he, hp, hmq, hm, hd, hsts, h]
  · simp [handleTransaction, baselineCountNullOrNotNumber,
      hc, hb, hbe, he, hp, hmq, hm, hd, hsts, h]
    split <;> try rfl
    split <;> try rfl
    split <;> rfl

/-- Witness for C7: an empty baseline result set fails with the
data-availability error and only the baseline query issued. -/
theorem c7_baseline_availability_witness :
    handleTransaction ⟨"m1", "t0", "ACCC", some ⟨some "c1", some "d1"⟩⟩
        (fun _ _ r => r) ⟨"903", "1.0.0", true, 0, "", ""⟩
        (some ⟨some "903", some ⟨some ⟨some (.fin 3600), none, none⟩,
          some [⟨".x00", "Unsuccessful"⟩],
          some [⟨".01", .fin 0, .fin 100, "band"⟩]⟩⟩)
        (fun _ => some []) (fun _ => .num (.fin 25))
      = ⟨.error "Data error: irretrievable baseline transaction history or no transactions found.",
         [baselineQueryOf "accounts/c1" "t0" (.fin 18000)]⟩ := by
  have h := (c7_baseline_availability ⟨"m1", "t0", "ACCC", some ⟨some "c1", some "d1"⟩⟩
    (fun _ _ r => r) ⟨"903", "1.0.0", true, 0, "", ""⟩
    (some ⟨some "903", some ⟨some ⟨some (.fin 3600), none, none⟩,
      some [⟨".x00", "Unsuccessful"⟩],
      some [⟨".01", .fin 0, .fin 100, "band"⟩]⟩⟩)
    (fun _ => some []) (fun _ => .num (.fin 25))
    ⟨some ⟨some (.fin 3600), none, none⟩, some [⟨".x00", "Unsuccessful"⟩],
      some [⟨".01", .fin 0, .fin 100, "band"⟩]⟩
    [⟨".01", .fin 0, .fin 100, "band"⟩] [⟨".x00", "Unsuccessful"⟩]
    ⟨some (.fin 3600), none, none⟩ (.fin 3600)
    rfl rfl rfl rfl rfl rfl rfl rfl rfl).2.1 rfl
  norm_num [effBaselineRange, jsMul, undefStr] at h
  exact h

/-- ToNumber on a number primitive is the identity. -/
theorem jsToNumber_num (v : JsNum) : jsToNumber (.num v) = v := rfl

/-- `>` is irreflexive on the number model: `x > x` is false for every
value, NaN and infinities included. -/
theorem jsGt_irrefl (x : JsNum) : jsGt x x = false := by
  cases x with
  | nan => rfl
  | inf s => cases s <;> rfl
  | fin q => simp [jsGt]

/-- C1: every invocation that reaches the surge decision calls the
outcome resolver with score 1 when `currentCount > baselineCount *
surgeThresholdMultiplier` holds strictly and 0 otherwise, returning its
result verbatim together with the two issued queries; on finite values
the decision is exactly the strict rational inequality, and when the
current count equals the threshold exactly the score is 0. -/
theorem c1_surge_decision (req : Req)
    (det : Nat → Option RuleConfig → RuleResult → RuleResult)
    (res : RuleResult) (rc : Option RuleConfig)
    (dbB : Query → Option (List JsVal)) (dbC : Query → JsVal)
    (cfg : RuleConfigInner) (bs : List Band) (ecs : List OutcomeResult)
    (ps : Parameters) (mqr : JsNum) (raw : JsVal) (rest : List JsVal) (c : JsNum)
    (hc : rc.bind RuleConfig.config = some cfg) (hb : cfg.bands = some bs)
    (hbe : bs.isEmpty = false) (he : cfg.exitConditions = some ecs)
    (hp : cfg.parameters = some ps) (hmq : ps.maxQueryRange = some mqr)
    (hm : mqr.truthy = true)
    (hd : strTruthy (req.dataCache.bind DataCache.dbtrAcctId) = true)
    (hsts : req.txSts = "ACCC")
    (hdb : dbB (baselineQueryOf
        ("accounts/" ++ undefStr (req.dataCache.bind DataCache.cdtrAcctId))
        req.creDtTm (effBaselineRange ps mqr)) = some (raw :: rest))
    (hcur : dbC (currentQueryOf
        ("accounts/" ++ undefStr (req.dataCache.bind DataCache.cdtrAcctId))
        req.creDtTm mqr) = .num c) :
    handleTransaction req det res rc dbB dbC
      = ⟨.ok (det (if jsGt c (jsMul
            (baselineCountOf (jsToNumber raw) (effBaselineRange ps mqr) mqr)
            (effMultiplier ps)) then 1 else 0) rc res),
         [baselineQueryOf
            ("accounts/" ++ undefStr (req.dataCache.bind DataCache.cdtrAcctId))
            req.creDtTm (effBaselineRange ps mqr),
          currentQueryOf
            ("accounts/" ++ undefStr (req.dataCache.bind DataCache.cdtrAcctId))
            req.creDtTm mqr]⟩
    ∧ (∀ cv tv : ℚ, c = .fin cv →
        jsMul (baselineCountOf (jsToNumber raw) (effBaselineRange ps mqr) mqr)
            (effMultiplier ps) = .fin tv →
        (jsGt c (jsMul (baselineCountOf (jsToNumber raw) (effBaselineRange ps mqr) mqr)
            (effMultiplier ps)) = true ↔ tv < cv))
    ∧ (c = jsMul (baselineCountOf (jsToNumber raw) (effBaselineRange ps mqr) mqr)
          (effMultiplier ps) →
        handleTransaction req det res rc dbB dbC
          = ⟨.ok (det 0 rc res),
             [baselineQueryOf
                ("accounts/" ++ undefStr (req.dataCache.bind DataCache.cdtrAcctId))
                req.creDtTm (effBaselineRange ps mqr),
              currentQueryOf
                ("accounts/" ++ undefStr (req.dataCache.bind DataCache.cdtrAcctId))
                req.creDtTm mqr]⟩) := by
  have main : handleTransaction req det res rc dbB dbC
      = ⟨.ok (det (if jsGt c (jsMul
            (baselineCountOf (jsToNumber raw) (effBaselineRange ps mqr) mqr)
            (effMultiplier ps)) then 1 else 0) rc res),
         [baselineQueryOf
            ("accounts/" ++ undefStr (req.dataCache.bind DataCache.cdtrAcctId))
            req.creDtTm (effBaselineRange ps mqr),
          currentQueryOf
            ("accounts/" ++ undefStr (req.dataCache.bind DataCache.cdtrAcctId))
            req.creDtTm mqr]⟩ := by
    simp only [handleTransaction, baselineCountNullOrNotNumber, hc, hb, hbe, he, hp,
      hmq, hm, hd, hsts, hdb, hcur, Option.some_bind, JsVal.isNullish,
      JsVal.typeofNumber, jsToNumber_num]
    simp [hbe, hsts]
    split <;> rfl
  refine ⟨main, fun cv tv hcv htv => ?_, fun hceq => ?_⟩
  · rw [hcv, htv]
    simp [jsGt]
  · rw [main, hceq, jsGt_irrefl]
    simp

/-- Witness for C1 at the spec's Scenario A: `maxQueryRange = 3600`, no
configured baseline range or multiplier, raw baseline 50, current count
25: `25 > 10 * 2`, so the resolver is called with score 1. -/
theorem c1_surge_decision_witness :
    handleTransaction ⟨"m1", "t0", "ACCC", some ⟨some "c1", some "d1"⟩⟩
        (fun s _ r => { r with prcgTm := s }) ⟨"903", "1.0.0", true, 0, "", ""⟩
        (some ⟨some "903", some ⟨some ⟨some (.fin 3600), none, none⟩,
          some [⟨".x00", "Unsuccessful"⟩],
          some [⟨".01", .fin 0, .fin 100, "band"⟩]⟩⟩)
        (fun _ => some [.num (.fin 50)]) (fun _ => .num (.fin 25))
      = ⟨.ok ⟨"903", "1.0.0", true, 1, "", ""⟩,
         [baselineQueryOf "accounts/c1" "t0" (.fin 18000),
          currentQueryOf "accounts/c1" "t0" (.fin 3600)]⟩ := by
  have h := (c1_surge_decision ⟨"m1", "t0", "ACCC", some ⟨some "c1", some "d1"⟩⟩
    (fun s _ r => { r with prcgTm := s }) ⟨"903", "1.0.0", true, 0, "", ""⟩
    (some ⟨some "903", some ⟨some ⟨some (.fin 3600), none, none⟩,
      some [⟨".x00", "Unsuccessful"⟩],
      some [⟨".01", .fin 0, .fin 100, "band"⟩]⟩⟩)
    (fun _ => some [.num (.fin 50)]) (fun _ => .num (.fin 25))
    ⟨some ⟨some (.fin 3600), none, none⟩, some [⟨".x00", "Unsuccessful"⟩],
      some [⟨".01", .fin 0, .fin 100, "band"⟩]⟩
    [⟨".01", .fin 0, .fin 100, "band"⟩] [⟨".x00", "Unsuccessful"⟩]
    ⟨some (.fin 3600), none, none⟩ (.fin 3600) (.num (.fin 50)) [] (.fin 25)
    rfl rfl rfl rfl rfl rfl rfl rfl rfl rfl rfl).1
  norm_num [effBaselineRange, effMultiplier, undefStr, jsToNumber, baselineCountOf,
    windowRatio, jsDiv, jsMul, jsGt] at h
  exact h

/-- C8: the line-79 guard is dead code, so a non-numeric raw baseline
does NOT abort the evaluation.  With the baseline collaborator returning
`[undefined]`, the computed baseline count is NaN, the guard test is
false, the current-window query is still issued, and the resolver is
called with score 0 — no type error is thrown, contradicting the claim
and the guard's own error message. -/
theorem c8_dead_baseline_type_guard :
    baselineCountOf (jsToNumber .undef) (.fin 18000) (.fin 3600) = .nan
    ∧ baselineCountNullOrNotNumber
        (baselineCountOf (jsToNumber .undef) (.fin 18000) (.fin 3600)) = false
    ∧ handleTransaction ⟨"m1", "t0", "ACCC", some ⟨some "c1", some "d1"⟩⟩
        (fun s _ r => { r with prcgTm := s }) ⟨"903", "1.0.0", true, 0, "", ""⟩
        (some ⟨some "903", some ⟨some ⟨some (.fin 3600), none, none⟩,
          some [⟨".x00", "Unsuccessful"⟩],
          some [⟨".01", .fin 0, .fin 100, "band"⟩]⟩⟩)
        (fun _ => some [.undef]) (fun _ => .num (.fin 25))
      = ⟨.ok ⟨"903", "1.0.0", true, 0, "", ""⟩,
         [baselineQueryOf "accounts/c1" "t0" (.fin 18000),
          currentQueryOf "accounts/c1" "t0" (.fin 3600)]⟩ := by
  refine ⟨rfl, rfl, ?_⟩
  norm_num [handleTransaction, effBaselineRange, effMultiplier, undefStr, strTruthy,
    jsToNumber, baselineCountOf, windowRatio, jsDiv, jsMul, jsGt, JsNum.truthy,
    baselineCountNullOrNotNumber, JsVal.isNullish, JsVal.typeofNumber]
  decide

/-- C10 counterexample: a configuration that passes every Step 1 guard
(`maxQueryRange = Infinity` is truthy) with a finite truthy
`baselineQueryRange = 3600` makes the normalising divisor
`baselineQueryRange / maxQueryRange` exactly 0, and the baseline division
is a division by zero, yielding Infinity rather than an error: the
evaluation still completes with score 0. -/
theorem c10_zero_divisor_counterexample :
    (JsNum.inf true).truthy = true
    ∧ (JsNum.fin 3600).truthy = true
    ∧ windowRatio (effBaselineRange ⟨some (.inf true), some (.fin 3600), none⟩ (.inf true))
        (.inf true) = .fin 0
    ∧ baselineCountOf (.fin 10)
        (effBaselineRange ⟨some (.inf true), some (.fin 3600), none⟩ (.inf true))
        (.inf true) = .inf true
    ∧ handleTransaction ⟨"m1", "t0", "ACCC", some ⟨some "c1", some "d1"⟩⟩
        (fun s _ r => { r with prcgTm := s }) ⟨"903", "1.0.0", true, 0, "", ""⟩
        (some ⟨some "903", some ⟨some ⟨some (.inf true), some (.fin 3600), none⟩,
          some [⟨".x00", "Unsuccessful"⟩],
          some [⟨".01", .fin 0, .fin 100, "band"⟩]⟩⟩)
        (fun _ => some [.num (.fin 10)]) (fun _ => .num (.fin 25))
      = ⟨.ok ⟨"903", "1.0.0", true, 0, "", ""⟩,
         [baselineQueryOf "accounts/c1" "t0" (.fin 3600),
          currentQueryOf "accounts/c1" "t0" (.inf true)]⟩ := by
  refine ⟨rfl, by norm_num [JsNum.truthy], rfl, rfl, ?_⟩
  norm_num [handleTransaction, effBaselineRange, effMultiplier, undefStr, strTruthy,
    jsToNumber, baselineCountOf, windowRatio, jsDiv, jsMul, jsGt,
    baselineCountNullOrNotNumber, JsVal.isNullish, JsVal.typeofNumber, JsNum.truthy]
  decide

/-- C10 amended: when `maxQueryRange` is a FINITE non-zero number (so it
passes its guard), the effective baseline range is truthy and the
normalising divisor `baselineQueryRange / maxQueryRange` is never the
number 0, so the baseline division is never a division by zero; the
unamended claim fails only for an infinite `maxQueryRange`. -/
theorem c10_divisor_nonzero_finite_max (p : Parameters) (m : ℚ) (hm : m ≠ 0) :
    (effBaselineRange p (.fin m)).truthy = true
    ∧ windowRatio (effBaselineRange p (.fin m)) (.fin m) ≠ .fin 0 := by
  have hdefault : (jsMul (JsNum.fin m) (.fin 5)).truthy = true
      ∧ windowRatio (jsMul (JsNum.fin m) (.fin 5)) (.fin m) ≠ .fin 0 := by
    have h5 : m * 5 ≠ 0 := by
      intro h
      rcases mul_eq_zero.mp h with h | h
      · exact hm h
      · norm_num at h
    constructor
    · simp [jsMul, JsNum.truthy, h5]
    · rw [windowRatio, jsMul, jsDiv_fin_fin _ hm]
      simp [div_ne_zero h5 hm]
  cases hb : p.baselineQueryRange with
  | none => simpa [effBaselineRange, hb] using hdefault
  | some v =>
    cases htv : v.truthy with
    | false => simpa [effBaselineRange, hb, htv] using hdefault
    | true =>
      cases v with
      | nan => simp [JsNum.truthy] at htv
      | inf s =>
        refine ⟨by simp [effBaselineRange, hb, htv, JsNum.truthy], ?_⟩
        simp [effBaselineRange, hb, htv, windowRatio, jsDiv]
      | fin q =>
        have hq : q ≠ 0 := by simpa [JsNum.truthy] using htv
        refine ⟨by simp [effBaselineRange, hb, htv, JsNum.truthy, hq], ?_⟩
        rw [effBaselineRange, hb]
        simp only [htv, if_true]
        rw [windowRatio, jsDiv_fin_fin _ hm]
        simp [div_ne_zero hq hm]

/-- Witness for the amended C10: with `maxQueryRange = 3600` and
`baselineQueryRange = 18000` the effective range is truthy and the
divisor is non-zero. -/
theorem c10_divisor_nonzero_finite_max_witness :
    (3600 : ℚ) ≠ 0
    ∧ ((effBaselineRange ⟨some (.fin 3600), some (.fin 18000), none⟩ (.fin 3600)).truthy = true
      ∧ windowRatio (effBaselineRange ⟨some (.fin 3600), some (.fin 18000), none⟩ (.fin 3600))
          (.fin 3600) ≠ .fin 0) :=
  ⟨by norm_num,
    c10_divisor_nonzero_finite_max ⟨some (.fin 3600), some (.fin 18000), none⟩ 3600
      (by norm_num)⟩

end Rule903
